import Mathlib

/-!
Shallow embedding of the UART device abstraction from `src/uart.hpp`.

The source file is an interface sketch: several bodies are elided with
`{...}` / `... Implementation ...`.  Definitions below that translate code
present in the source cite the line numbers; definitions for elided bodies
carry a doc comment starting with `Modelled from the spec:` and follow the
specification's words.  Machine integers (`size_t`, `uint32`) are modelled
as `Nat`; `std::vector<std::byte>*` is modelled as `Option (List Nat)`
(`Option.none` is the null pointer).
-/

namespace UART

/-- Parity enum, src/uart.hpp lines 4-8. -/
inductive Parity
  | None
  | Odd
  | Even
deriving DecidableEq

/-- StopBits enum; its constructors are elided (`...`) in the source
(lines 10-12), so a single placeholder constructor is used. -/
inductive StopBits
  | unspecified
deriving DecidableEq

/-- BitOrder enum, src/uart.hpp lines 14-17. -/
inductive BitOrder
  | LeastSignificant
  | MostSignificant
deriving DecidableEq

/-- Configuration struct, src/uart.hpp lines 22-35.  The source field
`timeout_ms` is a `uint32`; line 109 refers to it as `config.timeout`,
a sketch-level naming slip for the same field. -/
structure Configuration where
  baud_rate : Nat
  data_bits_size : Nat
  parity_type : Parity
  stop_bits : StopBits
  bit_order : BitOrder
  timeout_ms : Nat
  buffer_size : Nat := 0
deriving DecidableEq

/-- ErrorCode enum, src/uart.hpp lines 42-49, keeping the source's
spellings (`NoConnnection`, `Interupt`).  The source enum ends with `...`
(an open extension point); `Ext` stands for that extension point and is
used only for behaviour whose error code neither the source nor the spec
fixes (reopening an already-open device). -/
inductive ErrorCode
  | Okay
  | NoConnnection
  | Locked
  | Interupt
  | BufferUninitialized
  | Ext
deriving DecidableEq

/-- Status struct, src/uart.hpp lines 51-55. -/
structure Status where
  code : ErrorCode
  has_error : Bool
deriving DecidableEq

/-- Response struct, src/uart.hpp lines 57-60.  `data` is a possibly-null
pointer to a byte vector. -/
structure Response where
  status : Status
  data : Option (List Nat)
deriving DecidableEq

/-- Kind of the externally supplied lock: the source dispatches with
`dynamic_cast<std::timed_lock>` (line 108), i.e. on whether the lock is a
plain mutex or a timed mutex. -/
inductive LockKind
  | plain
  | timed
deriving DecidableEq

/-- Environment model of the externally supplied lock.  `heldElsewhere`
says whether a plain `try_lock` would fail right now; `availableAfterMs`
says after how many milliseconds a timed lock becomes acquirable
(`Option.none` = not acquirable within any bound). -/
structure LockState where
  kind : LockKind
  heldElsewhere : Bool
  availableAfterMs : Option Nat
deriving DecidableEq

/-- Non-blocking acquisition of a plain lock (`std::mutex::try_lock`). -/
def tryLock (l : LockState) : Bool := !l.heldElsewhere

/-- Bounded acquisition of a timed lock
(`std::timed_mutex::try_lock_for(durMs)`): succeeds exactly when the lock
becomes available within the given duration. -/
def tryLockFor (l : LockState) (durMs : Nat) : Bool :=
  match l.availableAfterMs with
  | Option.none => false
  | Option.some n => decide (n ≤ durMs)

/-- Buffer-strategy tag, fixed at open time (spec section 4.3): owned
buffer (`open()`), caller buffer (`open(buffer)`), or callback
(`open(callback)`).  `Option.none` on the device means no strategy is
active, i.e. the device is Closed. -/
inductive Mode
  | OwnedBuffer
  | BorrowedBuffer
  | Callback
deriving DecidableEq

/-- Device state, src/uart.hpp lines 64-131.  `buffer` models the member
`std::vector<std::byte>* buffer` (null when no allocation or reference is
held); `bufferOwned` records whether the pointed-to vector is owned by the
device (allocated with `new`) or borrowed from the caller; `bufferCap`
records the capacity reserved for an owned allocation.  The registered
`ReadCallback` value itself is not modelled (it is never invoked by any
operation modelled here); `mode = Option.some Mode.Callback` records that
one is registered. -/
structure Device where
  config : Configuration
  device_id : Nat
  lock : Option LockState
  buffer : Option (List Nat)
  bufferOwned : Bool
  bufferCap : Option Nat
  mode : Option Mode
deriving DecidableEq

/-- Device constructor, src/uart.hpp lines 72-79: stores `config` and
`lock`, and, when `config.buffer_size > 0`, allocates an owned vector and
reserves `DEFAULT_BUFFER_SIZE` capacity for it (line 76).  The constant
`DEFAULT_BUFFER_SIZE` is not defined in the source, so it is taken here as
the parameter `DEFAULT_BUFFER_SIZE`.  When `buffer_size = 0` no buffer is
allocated and no strategy is active. -/
def deviceInit (DEFAULT_BUFFER_SIZE : Nat) (config : Configuration)
    (device_id : Nat) (lock : Option LockState) : Device :=
  if config.buffer_size > 0 then
    { config := config, device_id := device_id, lock := lock,
      buffer := Option.some [], bufferOwned := true,
      bufferCap := Option.some DEFAULT_BUFFER_SIZE, mode := Option.none }
  else
    { config := config, device_id := device_id, lock := lock,
      buffer := Option.none, bufferOwned := false,
      bufferCap := Option.none, mode := Option.none }

/-- Modelled from the spec: the body of `Status Device::open()`
(src/uart.hpp line 92) is elided.  Spec sections 4.3 and 4.4: reopening an
already-open device fails without side effects (error code unspecified,
modelled by `Ext`); `open()` with `buffer_size == 0` fails with
`BufferUninitialized`; if the transport cannot be acquired it fails with
`NoConnnection` leaving the state Closed; otherwise it succeeds and
activates the owned-buffer strategy.  `conn` models whether the external
transport collaborator can be acquired. -/
def Device.openOwned (d : Device) (conn : Bool) : Status × Device :=
  if d.mode.isSome then
    ({ code := ErrorCode.Ext, has_error := true }, d)
  else if d.config.buffer_size = 0 then
    ({ code := ErrorCode.BufferUninitialized, has_error := true }, d)
  else if conn then
    ({ code := ErrorCode.Okay, has_error := false },
     { d with mode := Option.some Mode.OwnedBuffer,
              buffer := Option.some (d.buffer.getD []),
              bufferOwned := true })
  else
    ({ code := ErrorCode.NoConnnection, has_error := true }, d)

/-- Modelled from the spec: the body of `Status Device::open(buffer)`
(src/uart.hpp line 93) is elided.  Spec section 4.3: the device stores a
non-owning reference to the caller's buffer; reopen and transport failure
behave as for `open()`. -/
def Device.openBuffer (d : Device) (buf : List Nat) (conn : Bool) :
    Status × Device :=
  if d.mode.isSome then
    ({ code := ErrorCode.Ext, has_error := true }, d)
  else if conn then
    ({ code := ErrorCode.Okay, has_error := false },
     { d with mode := Option.some Mode.BorrowedBuffer,
              buffer := Option.some buf, bufferOwned := false })
  else
    ({ code := ErrorCode.NoConnnection, has_error := true }, d)

/-- Modelled from the spec: the body of `Status Device::open(callback)`
(src/uart.hpp line 94) is elided.  Spec section 4.3: the callback is
registered and no buffer is retained *for read purposes* — note the
constructor (source lines 74-77) has already allocated the owned buffer
whenever `buffer_size > 0`, and nothing deallocates it here. -/
def Device.openCallback (d : Device) (conn : Bool) : Status × Device :=
  if d.mode.isSome then
    ({ code := ErrorCode.Ext, has_error := true }, d)
  else if conn then
    ({ code := ErrorCode.Okay, has_error := false },
     { d with mode := Option.some Mode.Callback })
  else
    ({ code := ErrorCode.NoConnnection, has_error := true }, d)

/-- Modelled from the spec: the body of `Status Device::close()`
(src/uart.hpp line 99) is elided.  Spec section 4.4: closing an
already-closed device is a no-op returning `Okay`; otherwise the owned
buffer is released if present, the caller-buffer reference and callback
are cleared, and the device returns to the pre-open state. -/
def Device.close (d : Device) : Status × Device :=
  if d.mode.isNone then
    ({ code := ErrorCode.Okay, has_error := false }, d)
  else
    ({ code := ErrorCode.Okay, has_error := false },
     { d with mode := Option.none, buffer := Option.none,
              bufferOwned := false, bufferCap := Option.none })

/-- Result of the lock-acquisition envelope of `read`/`write`:
whether the operation may proceed, how long it waited (milliseconds), and
whether a supplied lock was actually acquired. -/
structure LockAttempt where
  proceed : Bool
  waitedMs : Nat
  acquired : Bool
deriving DecidableEq

/-- Lock-acquisition envelope, src/uart.hpp lines 106-116: with no lock,
proceed without synchronization; with a timed lock, `try_lock_for`
bounded by `timeout_ms` (waiting the full bound on failure, and the
lock's availability delay on success); with a plain lock, a non-blocking
`try_lock` (zero wait either way). -/
def acquireLock (lk : Option LockState) (timeoutMs : Nat) : LockAttempt :=
  match lk with
  | Option.none => { proceed := true, waitedMs := 0, acquired := false }
  | Option.some l =>
    match l.kind with
    | LockKind.timed =>
      if tryLockFor l timeoutMs then
        { proceed := true, waitedMs := min (l.availableAfterMs.getD 0) timeoutMs,
          acquired := true }
      else
        { proceed := false, waitedMs := timeoutMs, acquired := false }
    | LockKind.plain =>
      if tryLock l then
        { proceed := true, waitedMs := 0, acquired := true }
      else
        { proceed := false, waitedMs := 0, acquired := false }

/-- Outcome of the transport receive step driven by the external
collaborator (spec section 6: `receive_into(buffer, timeout) ->
ok/Interrupt/error`): either bytes arrive or the operation is aborted by
an interrupt. -/
inductive TransportResult
  | ok (bytes : List Nat)
  | interrupt
deriving DecidableEq

/-- Everything `read` produces: the `Response` returned to the caller, the
post-state of the device, and instrumentation of the run — whether the
transport I/O was performed, how long lock acquisition waited, and whether
the supplied lock was acquired and released. -/
structure ReadOutcome where
  resp : Response
  ioPerformed : Bool
  waitedMs : Nat
  lockAcquired : Bool
  lockReleased : Bool
  dev : Device
deriving DecidableEq

/-- Modelled from the spec: the `... Implementation ...` middle of
`Device::read` (src/uart.hpp line 118) is elided; per spec section 4.5 it
is the transport receive into `this->buffer`, returning
`{{Interupt, true}, nullptr}` when the transport aborts with an interrupt.
The success path is the source's own final statement (line 120):
`return {{ErrorCode::Okay, false}, this->buffer};` — unconditionally,
with no open-state or mode check (the spec's design notes record that the
source leaves callback-mode `read` unspecified).  When the buffer pointer
is null the source's return yields a null-data `Okay` response.  The lock,
when acquired, is released before returning (spec section 4.2, scoped
acquisition — the release is part of the elided implementation). -/
def readBody (d : Device) (tr : TransportResult) (waited : Nat)
    (acq : Bool) : ReadOutcome :=
  match tr with
  | TransportResult.interrupt =>
    { resp := { status := { code := ErrorCode.Interupt, has_error := true },
                data := Option.none },
      ioPerformed := true, waitedMs := waited,
      lockAcquired := acq, lockReleased := acq, dev := d }
  | TransportResult.ok bytes =>
    match d.buffer with
    | Option.some _ =>
      { resp := { status := { code := ErrorCode.Okay, has_error := false },
                  data := Option.some bytes },
        ioPerformed := true, waitedMs := waited,
        lockAcquired := acq, lockReleased := acq,
        dev := { d with buffer := Option.some bytes } }
    | Option.none =>
      { resp := { status := { code := ErrorCode.Okay, has_error := false },
                  data := Option.none },
        ioPerformed := true, waitedMs := waited,
        lockAcquired := acq, lockReleased := acq, dev := d }

/-- Device::read, src/uart.hpp lines 104-121: acquire the optional lock
(timed locks bounded by `config.timeout_ms`, plain locks non-blocking);
on failure return `{{ErrorCode::Locked, true}, nullptr}` having performed
no I/O (source lines 113-115); otherwise run the body. -/
def Device.read (d : Device) (tr : TransportResult) : ReadOutcome :=
  let la := acquireLock d.lock d.config.timeout_ms
  if la.proceed then
    readBody d tr la.waitedMs la.acquired
  else
    { resp := { status := { code := ErrorCode.Locked, has_error := true },
                data := Option.none },
      ioPerformed := false, waitedMs := la.waitedMs,
      lockAcquired := false, lockReleased := false, dev := d }

/-- Everything `write` produces: the returned `ErrorCode`, device
post-state, and the same run instrumentation as `ReadOutcome`. -/
structure WriteOutcome where
  code : ErrorCode
  ioPerformed : Bool
  waitedMs : Nat
  lockAcquired : Bool
  lockReleased : Bool
  dev : Device
deriving DecidableEq

/-- Modelled from the spec: the body of
`ErrorCode Device::write(data)` (src/uart.hpp line 123) is elided.  Spec
sections 4.2 and 4.5: the lock envelope is identical to `read`'s; on
acquisition failure return `Locked` with no I/O; writing zero bytes is a
no-op returning `Okay`; otherwise the transport transmit is performed and
its resulting code (`tres`, supplied by the external collaborator) is
returned; an acquired lock is released on every exit path. -/
def Device.write (d : Device) (data : List Nat) (tres : ErrorCode) :
    WriteOutcome :=
  let la := acquireLock d.lock d.config.timeout_ms
  if la.proceed then
    if data = [] then
      { code := ErrorCode.Okay, ioPerformed := false, waitedMs := la.waitedMs,
        lockAcquired := la.acquired, lockReleased := la.acquired, dev := d }
    else
      { code := tres, ioPerformed := true, waitedMs := la.waitedMs,
        lockAcquired := la.acquired, lockReleased := la.acquired, dev := d }
  else
    { code := ErrorCode.Locked, ioPerformed := false, waitedMs := la.waitedMs,
      lockAcquired := false, lockReleased := false, dev := d }

/-! Concrete fixtures used by witnesses and counterexamples. -/

/-- A configuration with no buffer-size hint (`buffer_size = 0`). -/
def cfgNoBuf : Configuration :=
  { baud_rate := 9600, data_bits_size := 8, parity_type := Parity.None,
    stop_bits := StopBits.unspecified, bit_order := BitOrder.LeastSignificant,
    timeout_ms := 100, buffer_size := 0 }

/-- A configuration asking for a device-owned buffer of 16 bytes. -/
def cfgBuf16 : Configuration :=
  { baud_rate := 9600, data_bits_size := 8, parity_type := Parity.None,
    stop_bits := StopBits.unspecified, bit_order := BitOrder.LeastSignificant,
    timeout_ms := 100, buffer_size := 16 }

/-- A configuration asking for a device-owned buffer of 5 bytes. -/
def cfgBuf5 : Configuration :=
  { baud_rate := 9600, data_bits_size := 8, parity_type := Parity.None,
    stop_bits := StopBits.unspecified, bit_order := BitOrder.LeastSignificant,
    timeout_ms := 100, buffer_size := 5 }

/-- A plain (non-timed) lock currently held by another party. -/
def heldPlainLock : LockState :=
  { kind := LockKind.plain, heldElsewhere := true,
    availableAfterMs := Option.none }

/-- A plain lock that is currently free. -/
def freePlainLock : LockState :=
  { kind := LockKind.plain, heldElsewhere := false,
    availableAfterMs := Option.none }

/-- A timed lock that does not become available within any bound. -/
def busyTimedLock : LockState :=
  { kind := LockKind.timed, heldElsewhere := true,
    availableAfterMs := Option.none }

/-- C1: for every Configuration with `buffer_size = 0`, calling the
no-argument `open()` on a Closed device fails with
`BufferUninitialized` and leaves the device Closed (and unchanged). -/
theorem openOwned_zero_buffer_fails (d : Device) (conn : Bool)
    (hclosed : d.mode = Option.none) (hbs : d.config.buffer_size = 0) :
    (d.openOwned conn).1 =
      { code := ErrorCode.BufferUninitialized, has_error := true } ∧
    (d.openOwned conn).2 = d ∧
    (d.openOwned conn).2.mode = Option.none := by
  unfold Device.openOwned
  simp [hclosed, hbs]

/-- Witness for C1 at a concrete Closed device with `buffer_size = 0`. -/
theorem openOwned_zero_buffer_fails_witness :
    (deviceInit 256 cfgNoBuf 1 Option.none).mode = Option.none ∧
    (deviceInit 256 cfgNoBuf 1 Option.none).config.buffer_size = 0 ∧
    (((deviceInit 256 cfgNoBuf 1 Option.none).openOwned true).1 =
        { code := ErrorCode.BufferUninitialized, has_error := true } ∧
      ((deviceInit 256 cfgNoBuf 1 Option.none).openOwned true).2 =
        deviceInit 256 cfgNoBuf 1 Option.none ∧
      ((deviceInit 256 cfgNoBuf 1 Option.none).openOwned true).2.mode =
        Option.none) :=
  ⟨by decide, by decide,
    openOwned_zero_buffer_fails (deviceInit 256 cfgNoBuf 1 Option.none) true
      (by decide) (by decide)⟩

/-- C2: with a plain (non-timed) lock that is currently held elsewhere,
`read()` and `write()` return `Locked` with zero wait, perform no I/O,
and `read()`'s Response carries null data. -/
theorem plain_lock_held_locked (d : Device) (l : LockState)
    (data : List Nat) (tr : TransportResult) (tres : ErrorCode)
    (hl : d.lock = Option.some l) (hk : l.kind = LockKind.plain)
    (hh : l.heldElsewhere = true) :
    ((d.read tr).resp =
        { status := { code := ErrorCode.Locked, has_error := true },
          data := Option.none } ∧
      (d.read tr).ioPerformed = false ∧
      (d.read tr).waitedMs = 0) ∧
    ((d.write data tres).code = ErrorCode.Locked ∧
      (d.write data tres).ioPerformed = false ∧
      (d.write data tres).waitedMs = 0) := by
  unfold Device.read Device.write acquireLock tryLock
  simp [hl, hk, hh]

/-- Witness for C2 at a concrete device holding a busy plain lock. -/
theorem plain_lock_held_locked_witness :
    (deviceInit 256 cfgBuf16 1 (Option.some heldPlainLock)).lock =
      Option.some heldPlainLock ∧
    heldPlainLock.kind = LockKind.plain ∧
    heldPlainLock.heldElsewhere = true ∧
    ((((deviceInit 256 cfgBuf16 1 (Option.some heldPlainLock)).read
          (TransportResult.ok [1])).resp =
        { status := { code := ErrorCode.Locked, has_error := true },
          data := Option.none } ∧
      ((deviceInit 256 cfgBuf16 1 (Option.some heldPlainLock)).read
          (TransportResult.ok [1])).ioPerformed = false ∧
      ((deviceInit 256 cfgBuf16 1 (Option.some heldPlainLock)).read
          (TransportResult.ok [1])).waitedMs = 0) ∧
     (((deviceInit 256 cfgBuf16 1 (Option.some heldPlainLock)).write [2]
          ErrorCode.Okay).code = ErrorCode.Locked ∧
      ((deviceInit 256 cfgBuf16 1 (Option.some heldPlainLock)).write [2]
          ErrorCode.Okay).ioPerformed = false ∧
      ((deviceInit 256 cfgBuf16 1 (Option.some heldPlainLock)).write [2]
          ErrorCode.Okay).waitedMs = 0)) :=
  ⟨by decide, by decide, by decide,
    plain_lock_held_locked (deviceInit 256 cfgBuf16 1 (Option.some heldPlainLock))
      heldPlainLock [2] (TransportResult.ok [1]) ErrorCode.Okay
      (by decide) (by decide) (by decide)⟩

/-- C3: with a timed-capable lock, `read()` and `write()` attempt
acquisition bounded by `config.timeout_ms`; when the acquisition times
out, both return `Locked`, perform no I/O, `read()` carries null data,
and the wait equals `config.timeout_ms` (the full bound, never more). -/
theorem timed_lock_timeout_locked (d : Device) (l : LockState)
    (data : List Nat) (tr : TransportResult) (tres : ErrorCode)
    (hl : d.lock = Option.some l) (hk : l.kind = LockKind.timed)
    (ht : tryLockFor l d.config.timeout_ms = false) :
    ((d.read tr).resp =
        { status := { code := ErrorCode.Locked, has_error := true },
          data := Option.none } ∧
      (d.read tr).ioPerformed = false ∧
      (d.read tr).waitedMs = d.config.timeout_ms) ∧
    ((d.write data tres).code = ErrorCode.Locked ∧
      (d.write data tres).ioPerformed = false ∧
      (d.write data tres).waitedMs = d.config.timeout_ms) := by
  unfold Device.read Device.write acquireLock
  simp [hl, hk, ht]

/-- Witness for C3 at a concrete device holding a timed lock that never
becomes available. -/
theorem timed_lock_timeout_locked_witness :
    (deviceInit 256 cfgBuf16 1 (Option.some busyTimedLock)).lock =
      Option.some busyTimedLock ∧
    busyTimedLock.kind = LockKind.timed ∧
    tryLockFor busyTimedLock
      (deviceInit 256 cfgBuf16 1 (Option.some busyTimedLock)).config.timeout_ms
      = false ∧
    ((((deviceInit 256 cfgBuf16 1 (Option.some busyTimedLock)).read
          (TransportResult.ok [1])).resp =
        { status := { code := ErrorCode.Locked, has_error := true },
          data := Option.none } ∧
      ((deviceInit 256 cfgBuf16 1 (Option.some busyTimedLock)).read
          (TransportResult.ok [1])).ioPerformed = false ∧
      ((deviceInit 256 cfgBuf16 1 (Option.some busyTimedLock)).read
          (TransportResult.ok [1])).waitedMs =
        (deviceInit 256 cfgBuf16 1 (Option.some busyTimedLock)).config.timeout_ms) ∧
     (((deviceInit 256 cfgBuf16 1 (Option.some busyTimedLock)).write [2]
          ErrorCode.Okay).code = ErrorCode.Locked ∧
      ((deviceInit 256 cfgBuf16 1 (Option.some busyTimedLock)).write [2]
          ErrorCode.Okay).ioPerformed = false ∧
      ((deviceInit 256 cfgBuf16 1 (Option.some busyTimedLock)).write [2]
          ErrorCode.Okay).waitedMs =
        (deviceInit 256 cfgBuf16 1 (Option.some busyTimedLock)).config.timeout_ms)) :=
  ⟨by decide, by decide, by decide,
    timed_lock_timeout_locked (deviceInit 256 cfgBuf16 1 (Option.some busyTimedLock))
      busyTimedLock [2] (TransportResult.ok [1]) ErrorCode.Okay
      (by decide) (by decide) (by decide)⟩

/-- C4 counterexample: a Device constructed with `buffer_size = 16`
already owns a buffer allocated by the constructor; after `open()` fails
with `NoConnnection` the device is Closed but still holds that allocated
owned buffer, so "a failed open leaves the Device with no owned buffer
allocated" is false at this input. -/
theorem failed_open_owned_buffer_persists :
    ((deviceInit 256 cfgBuf16 1 Option.none).openOwned false).1 =
      { code := ErrorCode.NoConnnection, has_error := true } ∧
    ((deviceInit 256 cfgBuf16 1 Option.none).openOwned false).2.mode =
      Option.none ∧
    ((deviceInit 256 cfgBuf16 1 Option.none).openOwned false).2.buffer.isSome
      = true ∧
    ((deviceInit 256 cfgBuf16 1 Option.none).openOwned false).2.bufferOwned
      = true := by decide

/-- C4 (amended): for every open variant, a failed open on a Closed
device leaves the device completely unchanged (hence Closed); open itself
acquires nothing — but the owned buffer allocated by the constructor
(when `buffer_size > 0`) persists. -/
theorem failed_open_leaves_device_unchanged (d : Device) (conn : Bool)
    (buf : List Nat) (hclosed : d.mode = Option.none) :
    ((d.openOwned conn).1.has_error = true → (d.openOwned conn).2 = d) ∧
    ((d.openBuffer buf conn).1.has_error = true →
      (d.openBuffer buf conn).2 = d) ∧
    ((d.openCallback conn).1.has_error = true →
      (d.openCallback conn).2 = d) := by
  unfold Device.openOwned Device.openBuffer Device.openCallback
  by_cases hbs : d.config.buffer_size = 0 <;> cases conn <;>
    simp [hclosed, hbs]

/-- Witness for the amended C4 at a concrete Closed device whose `open()`
fails with `NoConnnection`. -/
theorem failed_open_leaves_device_unchanged_witness :
    (deviceInit 256 cfgBuf16 5 Option.none).mode = Option.none ∧
    ((deviceInit 256 cfgBuf16 5 Option.none).openOwned false).1.has_error
      = true ∧
    ((deviceInit 256 cfgBuf16 5 Option.none).openOwned false).2 =
      deviceInit 256 cfgBuf16 5 Option.none :=
  ⟨by decide, by decide,
    (failed_open_leaves_device_unchanged (deviceInit 256 cfgBuf16 5 Option.none)
      false [0] (by decide)).1 (by decide)⟩

/-- C5: evaluation at the failing input.  A device constructed with
`buffer_size = 16` is opened in callback mode; a subsequent `read()`
returns status `Okay` (not an error) and the device-owned buffer's data —
`read` as written (src/uart.hpp line 120) performs no mode check and
falls through to `return {{ErrorCode::Okay, false}, this->buffer}`. -/
theorem read_in_callback_mode_returns_owned_buffer :
    (((deviceInit 256 cfgBuf16 1 Option.none).openCallback true).1 =
      { code := ErrorCode.Okay, has_error := false }) ∧
    (((deviceInit 256 cfgBuf16 1 Option.none).openCallback true).2.mode =
      Option.some Mode.Callback) ∧
    ((((deviceInit 256 cfgBuf16 1 Option.none).openCallback true).2.read
        (TransportResult.ok [65, 66])).resp =
      { status := { code := ErrorCode.Okay, has_error := false },
        data := Option.some [65, 66] }) ∧
    ((((deviceInit 256 cfgBuf16 1 Option.none).openCallback true).2.read
        (TransportResult.ok [65, 66])).resp.data =
      (((deviceInit 256 cfgBuf16 1 Option.none).openCallback true).2.read
        (TransportResult.ok [65, 66])).dev.buffer) ∧
    ((((deviceInit 256 cfgBuf16 1 Option.none).openCallback true).2.read
        (TransportResult.ok [65, 66])).dev.bufferOwned = true) := by decide

/-- C6 counterexample: in callback mode with a constructor-allocated
owned buffer, `read()` returns non-null data with `has_error = false`,
so "data is non-null iff `has_error = false` and the Device is not in
callback mode" fails at this input (data non-null while in callback
mode). -/
theorem response_data_nonnull_in_callback_mode :
    (((deviceInit 256 cfgBuf16 2 Option.none).openCallback true).2.mode =
      Option.some Mode.Callback) ∧
    ((((deviceInit 256 cfgBuf16 2 Option.none).openCallback true).2.read
        (TransportResult.ok [9, 9])).resp.status.has_error = false) ∧
    ((((deviceInit 256 cfgBuf16 2 Option.none).openCallback true).2.read
        (TransportResult.ok [9, 9])).resp.data.isSome = true) := by decide

/-- Data/error relationship of `readBody`: the returned data is non-null
exactly when no error is reported and the device's buffer pointer is
non-null. -/
theorem readBody_data_iff (d : Device) (tr : TransportResult)
    (waited : Nat) (acq : Bool) :
    (readBody d tr waited acq).resp.data.isSome = true ↔
      ((readBody d tr waited acq).resp.status.has_error = false ∧
        d.buffer.isSome = true) := by
  cases tr
  · rcases hb : d.buffer with _ | b <;> simp [readBody, hb]
  · simp [readBody]

/-- C6 (amended): for every Response returned by `read()`, the data
pointer is non-null iff `has_error = false` and the device's buffer
pointer is non-null.  (The claim's callback-mode clause is dropped:
`read` performs no mode check, so in callback mode with an owned buffer
it still returns data.) -/
theorem read_data_nonnull_iff (d : Device) (tr : TransportResult) :
    (d.read tr).resp.data.isSome = true ↔
      ((d.read tr).resp.status.has_error = false ∧
        d.buffer.isSome = true) := by
  by_cases hp : (acquireLock d.lock d.config.timeout_ms).proceed = true
  · simpa [Device.read, hp] using readBody_data_iff d tr
      (acquireLock d.lock d.config.timeout_ms).waitedMs
      (acquireLock d.lock d.config.timeout_ms).acquired
  · simp [Device.read, hp]

/-- C7 counterexample: a Device constructed with `buffer_size = 5` (and
`DEFAULT_BUFFER_SIZE = 256`) already has an owned buffer before any call
to `open` (it is still Closed), and the reserved capacity is
`DEFAULT_BUFFER_SIZE = 256`, not `buffer_size = 5` — refuting both "no
buffer is allocated before open" and "a buffer of that capacity". -/
theorem buffer_allocated_at_construction :
    (deviceInit 256 cfgBuf5 1 Option.none).mode = Option.none ∧
    (deviceInit 256 cfgBuf5 1 Option.none).buffer.isSome = true ∧
    (deviceInit 256 cfgBuf5 1 Option.none).bufferOwned = true ∧
    (deviceInit 256 cfgBuf5 1 Option.none).bufferCap = Option.some 256 ∧
    (deviceInit 256 cfgBuf5 1 Option.none).config.buffer_size = 5 := by
  decide

/-- C7 (amended): for every Configuration with `buffer_size > 0`, the
constructor (not `open`) allocates an owned buffer, reserving
`DEFAULT_BUFFER_SIZE` capacity rather than `buffer_size`;
`config.buffer_size` is read at construction time to decide whether to
allocate, and the freshly constructed device is still Closed. -/
theorem construction_allocates_owned_buffer (dbs : Nat)
    (cfg : Configuration) (i : Nat) (lk : Option LockState)
    (hbs : 0 < cfg.buffer_size) :
    (deviceInit dbs cfg i lk).buffer = Option.some [] ∧
    (deviceInit dbs cfg i lk).bufferOwned = true ∧
    (deviceInit dbs cfg i lk).bufferCap = Option.some dbs ∧
    (deviceInit dbs cfg i lk).mode = Option.none := by
  unfold deviceInit
  simp [hbs]

/-- Witness for the amended C7 at a concrete configuration with
`buffer_size = 16`. -/
theorem construction_allocates_owned_buffer_witness :
    0 < cfgBuf16.buffer_size ∧
    ((deviceInit 256 cfgBuf16 6 Option.none).buffer = Option.some [] ∧
      (deviceInit 256 cfgBuf16 6 Option.none).bufferOwned = true ∧
      (deviceInit 256 cfgBuf16 6 Option.none).bufferCap = Option.some 256 ∧
      (deviceInit 256 cfgBuf16 6 Option.none).mode = Option.none) :=
  ⟨by decide,
    construction_allocates_owned_buffer 256 cfgBuf16 6 Option.none (by decide)⟩

/-- C8: `close()` on a Closed device is a no-op returning `Okay` with no
observable state change. -/
theorem close_on_closed_is_noop (d : Device)
    (hclosed : d.mode = Option.none) :
    d.close = ({ code := ErrorCode.Okay, has_error := false }, d) := by
  unfold Device.close
  simp [hclosed]

/-- Witness for C8 at a concrete Closed device. -/
theorem close_on_closed_is_noop_witness :
    (deviceInit 256 cfgNoBuf 7 Option.none).mode = Option.none ∧
    (deviceInit 256 cfgNoBuf 7 Option.none).close =
      ({ code := ErrorCode.Okay, has_error := false },
        deviceInit 256 cfgNoBuf 7 Option.none) :=
  ⟨by decide,
    close_on_closed_is_noop (deviceInit 256 cfgNoBuf 7 Option.none) (by decide)⟩

/-- C9: whenever `read()` or `write()` actually acquires the supplied
lock, the lock is released before the operation returns, on every exit
path. -/
theorem lock_released_on_every_exit (d : Device) (tr : TransportResult)
    (data : List Nat) (tres : ErrorCode) :
    ((d.read tr).lockAcquired = true → (d.read tr).lockReleased = true) ∧
    ((d.write data tres).lockAcquired = true →
      (d.write data tres).lockReleased = true) := by
  constructor
  · by_cases hp : (acquireLock d.lock d.config.timeout_ms).proceed = true
    · cases tr <;> rcases hb : d.buffer with _ | b <;>
        simp [Device.read, readBody, hp, hb]
    · simp [Device.read, hp]
  · by_cases hp : (acquireLock d.lock d.config.timeout_ms).proceed = true
    · by_cases hd : data = [] <;> simp [Device.write, hp, hd]
    · simp [Device.write, hp]

/-- Witness for C9 at a concrete device whose free plain lock is
acquired by `read()`. -/
theorem lock_released_on_every_exit_witness :
    (((deviceInit 256 cfgBuf16 3 (Option.some freePlainLock)).read
        (TransportResult.ok [1])).lockAcquired = true) ∧
    (((deviceInit 256 cfgBuf16 3 (Option.some freePlainLock)).read
        (TransportResult.ok [1])).lockReleased = true) :=
  ⟨by decide,
    (lock_released_on_every_exit
      (deviceInit 256 cfgBuf16 3 (Option.some freePlainLock))
      (TransportResult.ok [1]) [] ErrorCode.Okay).1 (by decide)⟩

/-- C10: `read()` performs no open-state check — on a device constructed
with `buffer_size > 0` that has never been opened, with no lock supplied
or a lock that can be acquired, a `read()` whose transport step delivers
bytes returns status `{Okay, has_error = false}` and a pointer to the
device-owned buffer, not an error status. -/
theorem read_without_open_returns_owned_buffer (dbs : Nat)
    (cfg : Configuration) (i : Nat) (lk : Option LockState)
    (bytes : List Nat) (hbs : 0 < cfg.buffer_size)
    (hlk : (acquireLock lk cfg.timeout_ms).proceed = true) :
    (deviceInit dbs cfg i lk).mode = Option.none ∧
    ((deviceInit dbs cfg i lk).read (TransportResult.ok bytes)).resp.status =
      { code := ErrorCode.Okay, has_error := false } ∧
    ((deviceInit dbs cfg i lk).read (TransportResult.ok bytes)).resp.data =
      Option.some bytes ∧
    ((deviceInit dbs cfg i lk).read (TransportResult.ok bytes)).resp.data =
      ((deviceInit dbs cfg i lk).read (TransportResult.ok bytes)).dev.buffer ∧
    ((deviceInit dbs cfg i lk).read (TransportResult.ok bytes)).dev.bufferOwned
      = true := by
  unfold deviceInit Device.read readBody
  simp [hbs, hlk]

/-- Witness for C10 at a concrete never-opened device with
`buffer_size = 16` and no lock. -/
theorem read_without_open_returns_owned_buffer_witness :
    0 < cfgBuf16.buffer_size ∧
    (acquireLock Option.none cfgBuf16.timeout_ms).proceed = true ∧
    ((deviceInit 256 cfgBuf16 4 Option.none).mode = Option.none ∧
      ((deviceInit 256 cfgBuf16 4 Option.none).read
          (TransportResult.ok [7, 8])).resp.status =
        { code := ErrorCode.Okay, has_error := false } ∧
      ((deviceInit 256 cfgBuf16 4 Option.none).read
          (TransportResult.ok [7, 8])).resp.data = Option.some [7, 8] ∧
      ((deviceInit 256 cfgBuf16 4 Option.none).read
          (TransportResult.ok [7, 8])).resp.data =
        ((deviceInit 256 cfgBuf16 4 Option.none).read
          (TransportResult.ok [7, 8])).dev.buffer ∧
      ((deviceInit 256 cfgBuf16 4 Option.none).read
          (TransportResult.ok [7, 8])).dev.bufferOwned = true) :=
  ⟨by decide, by decide,
    read_without_open_returns_owned_buffer 256 cfgBuf16 4 Option.none [7, 8]
      (by decide) (by decide)⟩

end UART
